import Mathlib

/-!
Shallow embedding of the quaint PostgreSQL connector core
(src/connector/postgres.rs and src/connector/owned_transaction.rs).

Durations are modelled as whole seconds (Nat), matching the parser which
only ever builds durations via Duration::from_secs. Network behaviour is
modelled by an oracle `Server`; every wire interaction is recorded as an
`IoEvent` so that "no I/O happens" claims are statements about the trace.
Timeout races (connect_timeout / socket_timeout) are real-time behaviour
and are abstracted away; they are not needed by any claim proved here.
-/

namespace Quaint

/-- SSL accept mode, from src/connector/postgres.rs (SslAcceptMode). -/
inductive SslAcceptMode where
  | Strict
  | AcceptInvalidCerts
deriving DecidableEq, Repr

/-- SSL mode from tokio_postgres::config::SslMode as used by the parser. -/
inductive SslMode where
  | Disable
  | Prefer
  | Require
deriving DecidableEq, Repr

/-- Channel binding from tokio_postgres::config::ChannelBinding. -/
inductive ChannelBinding where
  | Disable
  | Prefer
  | Require
deriving DecidableEq, Repr

/-- SslParams, from src/connector/postgres.rs. The `Hidden` wrapper on the
identity password only affects Debug rendering and is dropped here. -/
structure SslParams where
  certificate_file : Option String
  identity_file : Option String
  identity_password : Option String
  ssl_accept_mode : SslAcceptMode
deriving DecidableEq, Repr

/-- PostgresUrlQueryParams, from src/connector/postgres.rs. Durations are
seconds (Nat). -/
structure PostgresUrlQueryParams where
  ssl_params : SslParams
  connection_limit : Option Nat
  schema : Option String
  ssl_mode : SslMode
  pg_bouncer : Bool
  host : Option String
  socket_timeout : Option Nat
  connect_timeout : Option Nat
  pool_timeout : Option Nat
  statement_cache_size : Nat
  max_connection_lifetime : Option Nat
  max_idle_connection_lifetime : Option Nat
  application_name : Option String
  channel_binding : ChannelBinding
  options : Option String
deriving DecidableEq, Repr

/-- The error kinds of the crate error type that the embedded code can
produce or inspect. -/
inductive ErrorKind where
  | InvalidConnectionArguments
  | QueryInvalidInput (message : String)
  | IncorrectNumberOfParameters (expected : Nat) (actual : Nat)
  | InvalidIsolationLevel (level : String)
  | ConnectionClosed
  | TlsError (message : String)
  | Other (message : String)
deriving DecidableEq, Repr

/-- The url::Url values the connector reads: host, port, path and the query
pairs in URL order, plus credentials. `query_pairs` models
url.query_pairs() (already percent-decoded key/value pairs). -/
structure Url where
  host_str : Option String
  port : Option Nat
  path : String
  query_pairs : List (String × String)
  username : String
  password : Option String
deriving DecidableEq, Repr

/-- Split a path remainder (the characters after the leading slash) at
every slash, as url::Url::path_segments does. Never returns the empty
list: splitting the empty remainder yields one empty segment. -/
def splitSegs : List Char → List (List Char)
  | [] => [[]]
  | c :: cs =>
    if c = '/' then [] :: splitSegs cs
    else
      match splitSegs cs with
      | s :: ss => (c :: s) :: ss
      | [] => [[c]]

/-- url::Url::path_segments: `Some` of the slash-separated segments when
the path starts with a slash, `None` otherwise (cannot-be-a-base URLs and
empty paths). -/
def Url.path_segments (u : Url) : Option (List String) :=
  match u.path.data with
  | '/' :: rest => some ((splitSegs rest).map (fun cs => String.mk cs))
  | _ => none

/-- Rust bool::from_str: exactly the strings true and false parse. -/
def parseBool (s : String) : Option Bool :=
  if s = "true" then some true
  else if s = "false" then some false
  else none

/-- Value of an ASCII decimal digit. -/
def digitVal (c : Char) : Option Nat :=
  if '0' ≤ c ∧ c ≤ '9' then some (c.toNat - Char.toNat '0') else none

/-- Accumulate decimal digits; fails on any non-digit. -/
def parseDigitsAux : List Char → Nat → Option Nat
  | [], acc => some acc
  | c :: cs, acc =>
    match digitVal c with
    | some d => parseDigitsAux cs (acc * 10 + d)
    | none => none

/-- Rust unsigned-integer from_str: an optional leading plus sign followed
by at least one decimal digit. Overflow of the fixed-width Rust types is
not modelled (Nat is unbounded); no claim depends on it. -/
def parseNat (s : String) : Option Nat :=
  match s.data with
  | [] => none
  | '+' :: [] => none
  | '+' :: cs => parseDigitsAux cs 0
  | cs => parseDigitsAux cs 0

/-- The initial accumulator of PostgresUrl::parse_query_params: the local
variable initializations at the top of the function. -/
def initParams : PostgresUrlQueryParams :=
  { ssl_params :=
      { certificate_file := none
      , identity_file := none
      , identity_password := none
      , ssl_accept_mode := SslAcceptMode.AcceptInvalidCerts }
  , connection_limit := none
  , schema := none
  , ssl_mode := SslMode.Prefer
  , pg_bouncer := false
  , host := none
  , socket_timeout := none
  , connect_timeout := some 5
  , pool_timeout := some 10
  , statement_cache_size := 100
  , max_connection_lifetime := none
  , max_idle_connection_lifetime := some 300
  , application_name := none
  , channel_binding := ChannelBinding.Prefer
  , options := none }

/-- One iteration of the query-pair loop of parse_query_params: the match
on the key, updating the accumulator or failing with
InvalidConnectionArguments. Unrecognized keys are discarded (after a trace
log in the source). -/
def parseStep (acc : PostgresUrlQueryParams) (kv : String × String) :
    Except ErrorKind PostgresUrlQueryParams :=
  let k := kv.1
  let v := kv.2
  if k = "pgbouncer" then
    match parseBool v with
    | some b => Except.ok { acc with pg_bouncer := b }
    | none => Except.error ErrorKind.InvalidConnectionArguments
  else if k = "sslmode" then
    if v = "disable" then Except.ok { acc with ssl_mode := SslMode.Disable }
    else if v = "prefer" then Except.ok { acc with ssl_mode := SslMode.Prefer }
    else if v = "require" then Except.ok { acc with ssl_mode := SslMode.Require }
    else Except.ok acc
  else if k = "sslcert" then
    Except.ok { acc with ssl_params := { acc.ssl_params with certificate_file := some v } }
  else if k = "sslidentity" then
    Except.ok { acc with ssl_params := { acc.ssl_params with identity_file := some v } }
  else if k = "sslpassword" then
    Except.ok { acc with ssl_params := { acc.ssl_params with identity_password := some v } }
  else if k = "statement_cache_size" then
    match parseNat v with
    | some n => Except.ok { acc with statement_cache_size := n }
    | none => Except.error ErrorKind.InvalidConnectionArguments
  else if k = "sslaccept" then
    if v = "strict" then
      Except.ok { acc with ssl_params := { acc.ssl_params with ssl_accept_mode := SslAcceptMode.Strict } }
    else if v = "accept_invalid_certs" then
      Except.ok { acc with ssl_params := { acc.ssl_params with ssl_accept_mode := SslAcceptMode.AcceptInvalidCerts } }
    else
      Except.ok { acc with ssl_params := { acc.ssl_params with ssl_accept_mode := SslAcceptMode.Strict } }
  else if k = "schema" then
    Except.ok { acc with schema := some v }
  else if k = "connection_limit" then
    match parseNat v with
    | some n => Except.ok { acc with connection_limit := some n }
    | none => Except.error ErrorKind.InvalidConnectionArguments
  else if k = "host" then
    Except.ok { acc with host := some v }
  else if k = "socket_timeout" then
    match parseNat v with
    | some n => Except.ok { acc with socket_timeout := some n }
    | none => Except.error ErrorKind.InvalidConnectionArguments
  else if k = "connect_timeout" then
    match parseNat v with
    | some n =>
      if n = 0 then Except.ok { acc with connect_timeout := none }
      else Except.ok { acc with connect_timeout := some n }
    | none => Except.error ErrorKind.InvalidConnectionArguments
  else if k = "pool_timeout" then
    match parseNat v with
    | some n =>
      if n = 0 then Except.ok { acc with pool_timeout := none }
      else Except.ok { acc with pool_timeout := some n }
    | none => Except.error ErrorKind.InvalidConnectionArguments
  else if k = "max_connection_lifetime" then
    match parseNat v with
    | some n =>
      if n = 0 then Except.ok { acc with max_connection_lifetime := none }
      else Except.ok { acc with max_connection_lifetime := some n }
    | none => Except.error ErrorKind.InvalidConnectionArguments
  else if k = "max_idle_connection_lifetime" then
    match parseNat v with
    | some n =>
      if n = 0 then Except.ok { acc with max_idle_connection_lifetime := none }
      else Except.ok { acc with max_idle_connection_lifetime := some n }
    | none => Except.error ErrorKind.InvalidConnectionArguments
  else if k = "application_name" then
    Except.ok { acc with application_name := some v }
  else if k = "channel_binding" then
    if v = "disable" then Except.ok { acc with channel_binding := ChannelBinding.Disable }
    else if v = "prefer" then Except.ok { acc with channel_binding := ChannelBinding.Prefer }
    else if v = "require" then Except.ok { acc with channel_binding := ChannelBinding.Require }
    else Except.ok acc
  else if k = "options" then
    Except.ok { acc with options := some v }
  else
    Except.ok acc

/-- The query-pair loop of parse_query_params: fold parseStep over the
pairs in URL order, short-circuiting on the first error. -/
def parsePairs : List (String × String) → PostgresUrlQueryParams →
    Except ErrorKind PostgresUrlQueryParams
  | [], acc => Except.ok acc
  | kv :: rest, acc =>
    match parseStep acc kv with
    | Except.ok acc2 => parsePairs rest acc2
    | Except.error e => Except.error e

/-- PostgresUrl::parse_query_params. -/
def parse_query_params (pairs : List (String × String)) :
    Except ErrorKind PostgresUrlQueryParams :=
  parsePairs pairs initParams

/-- PostgresUrl, from src/connector/postgres.rs: the bare url plus the
parsed query params. -/
structure PostgresUrl where
  url : Url
  query_params : PostgresUrlQueryParams
deriving DecidableEq, Repr

/-- PostgresUrl::new: parse the query params; on success pair them with
the url. -/
def PostgresUrl.new (url : Url) : Except ErrorKind PostgresUrl :=
  match parse_query_params url.query_pairs with
  | Except.ok qp => Except.ok { url := url, query_params := qp }
  | Except.error e => Except.error e

/-- PostgresUrl::host: the host query parameter wins, then the URL host;
an absent or empty URL host defaults to localhost. -/
def PostgresUrl.host (u : PostgresUrl) : String :=
  match u.query_params.host, u.url.host_str with
  | some host, _ => host
  | none, some "" => "localhost"
  | none, none => "localhost"
  | none, some host => host

/-- PostgresUrl::dbname: the first path segment, defaulting to postgres
when the segment iterator is absent or empty. -/
def PostgresUrl.dbname (u : PostgresUrl) : String :=
  match u.url.path_segments with
  | some segments => segments.head?.getD "postgres"
  | none => "postgres"

/-- Parameter type OID, kept symbolic. -/
def Oid := String
deriving DecidableEq, Repr

/-- A parameter value (ast::Value), reduced to the shapes the claims
need; the connector code under scrutiny never inspects values, it only
counts and forwards them. -/
inductive PValue where
  | null
  | int (n : Int)
  | text (s : String)
deriving DecidableEq, Repr

/-- A server-side prepared statement handle (tokio_postgres::Statement):
declared parameter OIDs and column names. -/
structure Statement where
  params : List Oid
  columns : List String
deriving DecidableEq, Repr

/-- Statement::to_column_names. -/
def Statement.to_column_names (s : Statement) : List String :=
  s.columns

/-- Decidable equality for Except results, needed to evaluate concrete
witnesses. -/
instance instDecEqExcept {ε α : Type} [DecidableEq ε] [DecidableEq α] :
    DecidableEq (Except ε α) := fun a b =>
  match a, b with
  | Except.ok x, Except.ok y =>
    if h : x = y then isTrue (h ▸ rfl)
    else isFalse (fun hc => h (Except.ok.inj hc))
  | Except.error x, Except.error y =>
    if h : x = y then isTrue (h ▸ rfl)
    else isFalse (fun hc => h (Except.error.inj hc))
  | Except.ok _, Except.error _ => isFalse (fun hc => Except.noConfusion hc)
  | Except.error _, Except.ok _ => isFalse (fun hc => Except.noConfusion hc)

/-- A wire row together with the outcome of decoding it
(GetRow::get_result_row). -/
structure Row where
  get_result_row : Except ErrorKind (List PValue)
deriving DecidableEq, Repr

/-- connector::ResultSet: column names plus decoded rows in arrival
order. -/
structure ResultSet where
  columns : List String
  rows : List (List PValue)
deriving DecidableEq, Repr

/-- Modelled from the spec: conversion::params_to_types (the conversion
module is not part of the sources under scrutiny). The typed fetch path
derives one expected type OID per parameter; the untyped path passes an
empty slice. The exact OID chosen per value is irrelevant to every claim;
what matters is that it is a pure function of the parameter list. -/
def params_to_types (params : List PValue) : List Oid :=
  params.map (fun p =>
    match p with
    | PValue.null => ("unknown" : Oid)
    | PValue.int _ => ("int8" : Oid)
    | PValue.text _ => ("text" : Oid))

/-- Modelled from the spec: conversion::conv_params converts each value to
its wire representation; the wire form is abstracted as the value
itself. -/
def conv_params (params : List PValue) : List PValue :=
  params

/-- The mutex-guarded LRU statement cache (lru_cache::LruCache keyed by
SQL text). Entries are kept least-recently-used first. -/
structure LruCache where
  capacity : Nat
  entries : List (String × Statement)
deriving DecidableEq, Repr

/-- LruCache::new. -/
def LruCache.new (capacity : Nat) : LruCache :=
  { capacity := capacity, entries := [] }

/-- LruCache::get_mut: on a hit the entry moves to the most-recent end;
on a miss the cache is unchanged. -/
def LruCache.get_mut (c : LruCache) (k : String) : Option Statement × LruCache :=
  match c.entries.lookup k with
  | some v =>
    (some v, { capacity := c.capacity
             , entries := (c.entries.filter (fun kv => kv.1 ≠ k)) ++ [(k, v)] })
  | none => (none, c)

/-- LruCache::insert: replace any entry with the same key, append at the
most-recent end, then evict from the least-recent end while over
capacity. Capacity 0 therefore never retains anything. -/
def LruCache.insert (c : LruCache) (k : String) (v : Statement) : LruCache :=
  let es := (c.entries.filter (fun kv => kv.1 ≠ k)) ++ [(k, v)]
  { capacity := c.capacity, entries := es.drop (es.length - c.capacity) }

/-- PostgresUrl::cache: a fresh Lru cache, capacity 0 under pgbouncer
mode, statement_cache_size otherwise. -/
def PostgresUrl.cache (u : PostgresUrl) : LruCache :=
  if u.query_params.pg_bouncer then LruCache.new 0
  else LruCache.new u.query_params.statement_cache_size

/-- One recorded wire interaction of the session. -/
inductive IoEvent where
  | prepare (sql : String) (tys : List Oid)
  | query (sql : String) (params : List PValue)
  | execute (sql : String) (params : List PValue)
  | simpleQuery (cmd : String)
deriving DecidableEq, Repr

/-- The server oracle: what the peer answers to each wire interaction.
Keeping it an arbitrary pure function lets the theorems quantify over
every server behaviour. -/
structure Server where
  prepare : String → List Oid → Except ErrorKind Statement
  query : Statement → List PValue → Except ErrorKind (List Row)
  execute : Statement → List PValue → Except ErrorKind Nat
  simple_query : String → Except ErrorKind Unit

/-- The mutable state of a PostgreSql session: the statement cache and the
is_healthy flag, plus the configuration read at construction. -/
structure SessionState where
  pg_bouncer : Bool
  socket_timeout : Option Nat
  statement_cache : LruCache
  is_healthy : Bool
deriving DecidableEq, Repr

/-- Error::is_closed for the modelled error kinds. -/
def ErrorKind.is_closed : ErrorKind → Bool
  | ErrorKind.ConnectionClosed => true
  | _ => false

/-- PostgreSql::perform_io, minus the real-time socket-timeout race: a
connection-closed failure flips is_healthy to false before surfacing; any
other outcome passes through. -/
def perform_io {α : Type} (st : SessionState) (r : Except ErrorKind α) :
    Except ErrorKind α × SessionState :=
  match r with
  | Except.error e =>
    (Except.error e, if e.is_closed then { st with is_healthy := false } else st)
  | Except.ok v => (Except.ok v, st)

/-- PostgreSql::fetch_cached: under the cache lock, a hit clones the
stored handle; a miss prepares through perform_io (recorded as a prepare
event) and inserts the handle. -/
def fetch_cached (srv : Server) (st : SessionState) (sql : String)
    (params : List PValue) :
    Except ErrorKind Statement × SessionState × List IoEvent :=
  match (st.statement_cache.get_mut sql) with
  | (some stmt, cache2) =>
    (Except.ok stmt, { st with statement_cache := cache2 }, [])
  | (none, cache2) =>
    let st1 : SessionState := { st with statement_cache := cache2 }
    let tys := params_to_types params
    match perform_io st1 (srv.prepare sql tys) with
    | (Except.ok stmt, st2) =>
      (Except.ok stmt,
       { st2 with statement_cache := st2.statement_cache.insert sql stmt },
       [IoEvent.prepare sql tys])
    | (Except.error e, st2) => (Except.error e, st2, [IoEvent.prepare sql tys])

/-- The error message built by PostgreSql::check_bind_variables_len
(i16::MAX is 32767). -/
def bind_limit_message (n : Nat) : String :=
  ("too many bind variables in prepared statement, expected maximum of 32767, received ")
    ++ toString n

/-- PostgreSql::check_bind_variables_len. -/
def check_bind_variables_len (params : List PValue) : Except ErrorKind Unit :=
  if params.length > 32767 then
    Except.error (ErrorKind.QueryInvalidInput (bind_limit_message params.length))
  else
    Except.ok ()

/-- Decode the received rows in order, aborting on the first failing row,
as the for-loop over row.get_result_row does. -/
def decode_rows : List Row → Except ErrorKind (List (List PValue))
  | [] => Except.ok []
  | r :: rs =>
    match r.get_result_row with
    | Except.error e => Except.error e
    | Except.ok vals =>
      match decode_rows rs with
      | Except.error e => Except.error e
      | Except.ok rest => Except.ok (vals :: rest)

/-- PostgreSql::query_raw: bind-limit check, untyped fetch_cached, arity
check, then the query through perform_io and row decoding. The metrics
timing wrapper has no observable effect and is omitted. -/
def PostgreSql.query_raw (srv : Server) (st : SessionState) (sql : String)
    (params : List PValue) :
    Except ErrorKind ResultSet × SessionState × List IoEvent :=
  match check_bind_variables_len params with
  | Except.error e => (Except.error e, st, [])
  | Except.ok _ =>
    match fetch_cached srv st sql [] with
    | (Except.error e, st1, evs) => (Except.error e, st1, evs)
    | (Except.ok stmt, st1, evs) =>
      if stmt.params.length ≠ params.length then
        (Except.error (ErrorKind.IncorrectNumberOfParameters stmt.params.length params.length),
         st1, evs)
      else
        match perform_io st1 (srv.query stmt (conv_params params)) with
        | (Except.error e, st2) =>
          (Except.error e, st2, evs ++ [IoEvent.query sql (conv_params params)])
        | (Except.ok rows, st2) =>
          match decode_rows rows with
          | Except.error e =>
            (Except.error e, st2, evs ++ [IoEvent.query sql (conv_params params)])
          | Except.ok decoded =>
            (Except.ok { columns := stmt.to_column_names, rows := decoded },
             st2, evs ++ [IoEvent.query sql (conv_params params)])

/-- PostgreSql::query_raw_typed: as query_raw but fetch_cached receives
the actual parameter list for type derivation. -/
def PostgreSql.query_raw_typed (srv : Server) (st : SessionState) (sql : String)
    (params : List PValue) :
    Except ErrorKind ResultSet × SessionState × List IoEvent :=
  match check_bind_variables_len params with
  | Except.error e => (Except.error e, st, [])
  | Except.ok _ =>
    match fetch_cached srv st sql params with
    | (Except.error e, st1, evs) => (Except.error e, st1, evs)
    | (Except.ok stmt, st1, evs) =>
      if stmt.params.length ≠ params.length then
        (Except.error (ErrorKind.IncorrectNumberOfParameters stmt.params.length params.length),
         st1, evs)
      else
        match perform_io st1 (srv.query stmt (conv_params params)) with
        | (Except.error e, st2) =>
          (Except.error e, st2, evs ++ [IoEvent.query sql (conv_params params)])
        | (Except.ok rows, st2) =>
          match decode_rows rows with
          | Except.error e =>
            (Except.error e, st2, evs ++ [IoEvent.query sql (conv_params params)])
          | Except.ok decoded =>
            (Except.ok { columns := stmt.to_column_names, rows := decoded },
             st2, evs ++ [IoEvent.query sql (conv_params params)])

/-- PostgreSql::execute_raw: bind-limit check, untyped fetch_cached,
arity check, then execute through perform_io returning the change
count. -/
def PostgreSql.execute_raw (srv : Server) (st : SessionState) (sql : String)
    (params : List PValue) :
    Except ErrorKind Nat × SessionState × List IoEvent :=
  match check_bind_variables_len params with
  | Except.error e => (Except.error e, st, [])
  | Except.ok _ =>
    match fetch_cached srv st sql [] with
    | (Except.error e, st1, evs) => (Except.error e, st1, evs)
    | (Except.ok stmt, st1, evs) =>
      if stmt.params.length ≠ params.length then
        (Except.error (ErrorKind.IncorrectNumberOfParameters stmt.params.length params.length),
         st1, evs)
      else
        match perform_io st1 (srv.execute stmt (conv_params params)) with
        | (Except.error e, st2) =>
          (Except.error e, st2, evs ++ [IoEvent.execute sql (conv_params params)])
        | (Except.ok changes, st2) =>
          (Except.ok changes, st2, evs ++ [IoEvent.execute sql (conv_params params)])

/-- PostgreSql::execute_raw_typed: as execute_raw with the typed
fetch path. -/
def PostgreSql.execute_raw_typed (srv : Server) (st : SessionState) (sql : String)
    (params : List PValue) :
    Except ErrorKind Nat × SessionState × List IoEvent :=
  match check_bind_variables_len params with
  | Except.error e => (Except.error e, st, [])
  | Except.ok _ =>
    match fetch_cached srv st sql params with
    | (Except.error e, st1, evs) => (Except.error e, st1, evs)
    | (Except.ok stmt, st1, evs) =>
      if stmt.params.length ≠ params.length then
        (Except.error (ErrorKind.IncorrectNumberOfParameters stmt.params.length params.length),
         st1, evs)
      else
        match perform_io st1 (srv.execute stmt (conv_params params)) with
        | (Except.error e, st2) =>
          (Except.error e, st2, evs ++ [IoEvent.execute sql (conv_params params)])
        | (Except.ok changes, st2) =>
          (Except.ok changes, st2, evs ++ [IoEvent.execute sql (conv_params params)])

/-- PostgreSql::raw_cmd: simple-query protocol through perform_io,
bypassing preparation. -/
def PostgreSql.raw_cmd (srv : Server) (st : SessionState) (cmd : String) :
    Except ErrorKind Unit × SessionState × List IoEvent :=
  match perform_io st (srv.simple_query cmd) with
  | (res, st1) => (res, st1, [IoEvent.simpleQuery cmd])

/-- Modelled from the spec: connector::IsolationLevel (defined outside the
sources under scrutiny). PostgreSQL knows the four standard levels; the
Snapshot level exists for other backends and is the one the claim is
about. The Display rendering is the upper-case SQL spelling. -/
inductive IsolationLevel where
  | ReadUncommitted
  | ReadCommitted
  | RepeatableRead
  | Serializable
  | Snapshot
deriving DecidableEq, Repr

/-- Modelled from the spec: the Display impl of IsolationLevel, the text
interpolated into SET TRANSACTION ISOLATION LEVEL. -/
def IsolationLevel.display : IsolationLevel → String
  | IsolationLevel.ReadUncommitted => "READ UNCOMMITTED"
  | IsolationLevel.ReadCommitted => "READ COMMITTED"
  | IsolationLevel.RepeatableRead => "REPEATABLE READ"
  | IsolationLevel.Serializable => "SERIALIZABLE"
  | IsolationLevel.Snapshot => "SNAPSHOT"

/-- PostgreSql::set_tx_isolation_level: Snapshot is rejected up front
with an invalid-isolation-level error; every other level is sent as a
SET TRANSACTION ISOLATION LEVEL command through raw_cmd. -/
def PostgreSql.set_tx_isolation_level (srv : Server) (st : SessionState)
    (isolation_level : IsolationLevel) :
    Except ErrorKind Unit × SessionState × List IoEvent :=
  if isolation_level = IsolationLevel.Snapshot then
    (Except.error (ErrorKind.InvalidIsolationLevel isolation_level.display), st, [])
  else
    PostgreSql.raw_cmd srv st
      (("SET TRANSACTION ISOLATION LEVEL ") ++ isolation_level.display)

/-- TransactionOptions as consumed by OwnedTransaction::new (the struct
itself lives outside the sources under scrutiny; its two fields are read
at lines 28 and 36 of owned_transaction.rs). -/
structure TransactionOptions where
  isolation_level : Option IsolationLevel
  isolation_first : Bool
deriving DecidableEq, Repr

/-- The wrapped Queryable of an owned transaction, as the oracle of its
three fallible calls during begin/commit/rollback. Arbitrary pure
functions quantify over every session behaviour. -/
structure TxQueryable where
  set_tx_isolation_level : IsolationLevel → Except ErrorKind Unit
  raw_cmd : String → Except ErrorKind Unit
  server_reset_query : Except ErrorKind Unit

/-- OwnedTransaction, from src/connector/owned_transaction.rs: holds the
shared reference to the wrapped session. -/
structure OwnedTransaction where
  inner : TxQueryable

/-- OwnedTransaction::new, threading the active-transaction gauge
explicitly: optional isolation statement (before or after the begin
statement according to isolation_first), the begin statement, the server
reset query, and only then — on success of all of them — the gauge
increment. Any failure propagates with the gauge untouched. -/
def OwnedTransaction.new (inner : TxQueryable) (begin_stmt : String)
    (tx_opts : TransactionOptions) (gauge : Int) :
    Except ErrorKind OwnedTransaction × Int :=
  let isoStep : Except ErrorKind Unit :=
    match tx_opts.isolation_level with
    | some isolation => inner.set_tx_isolation_level isolation
    | none => Except.ok ()
  let steps : Except ErrorKind Unit := do
    if tx_opts.isolation_first then
      isoStep
    inner.raw_cmd begin_stmt
    if !tx_opts.isolation_first then
      isoStep
    inner.server_reset_query
  match steps with
  | Except.error e => (Except.error e, gauge)
  | Except.ok _ => (Except.ok { inner := inner }, gauge + 1)

/-- OwnedTransaction::commit: decrement the gauge, then issue COMMIT
through the wrapped session; the raw_cmd outcome is the result, the
decrement happens unconditionally first. -/
def OwnedTransaction.commit (t : OwnedTransaction) (gauge : Int) :
    Except ErrorKind Unit × Int :=
  (t.inner.raw_cmd ("COMMIT"), gauge - 1)

/-- OwnedTransaction::rollback: decrement the gauge, then issue
ROLLBACK. -/
def OwnedTransaction.rollback (t : OwnedTransaction) (gauge : Int) :
    Except ErrorKind Unit × Int :=
  (t.inner.raw_cmd ("ROLLBACK"), gauge - 1)

/-- A concrete prepared-statement handle declaring one parameter, for
witnesses. -/
def stmtOneParam : Statement :=
  { params := [("int8" : Oid)], columns := ["col"] }

/-- A server oracle on which every interaction succeeds, preparing a
one-parameter statement. -/
def srvAllOk : Server :=
  { prepare := fun _ _ => Except.ok stmtOneParam
  , query := fun _ _ => Except.ok []
  , execute := fun _ _ => Except.ok 0
  , simple_query := fun _ => Except.ok () }

/-- A freshly constructed session state with the default cache size. -/
def initSession : SessionState :=
  { pg_bouncer := false
  , socket_timeout := none
  , statement_cache := LruCache.new 100
  , is_healthy := true }

/-- A wrapped session on which every transaction step succeeds. -/
def txAllOk : TxQueryable :=
  { set_tx_isolation_level := fun _ => Except.ok ()
  , raw_cmd := fun _ => Except.ok ()
  , server_reset_query := Except.ok () }

/-- Every event emitted by fetch_cached is a statement preparation; no
query, execute or simple-query traffic happens there. -/
theorem fetch_cached_events_prepare (srv : Server) (st : SessionState)
    (sql : String) (params : List PValue) (r : Except ErrorKind Statement)
    (st1 : SessionState) (evs : List IoEvent)
    (h : fetch_cached srv st sql params = (r, st1, evs)) :
    ∀ ev ∈ evs, ∃ s tys, ev = IoEvent.prepare s tys := by
  have h2 : evs = (fetch_cached srv st sql params).2.2 := by rw [h]
  subst h2
  unfold fetch_cached
  split <;> intro ev hev
  · simp at hev
  · simp only [] at hev
    split at hev <;> simp at hev <;> exact ⟨_, _, hev⟩

/-- C1: with more than 32767 parameters, each of query_raw,
query_raw_typed, execute_raw and execute_raw_typed returns the
QueryInvalidInput error immediately, with an unchanged session state and
an empty I/O trace: no preparation and no network traffic at all. -/
theorem bind_limit_rejected_before_io (srv : Server) (st : SessionState)
    (sql : String) (params : List PValue) (h : params.length > 32767) :
    PostgreSql.query_raw srv st sql params =
      (Except.error (ErrorKind.QueryInvalidInput (bind_limit_message params.length)), st, []) ∧
    PostgreSql.query_raw_typed srv st sql params =
      (Except.error (ErrorKind.QueryInvalidInput (bind_limit_message params.length)), st, []) ∧
    PostgreSql.execute_raw srv st sql params =
      (Except.error (ErrorKind.QueryInvalidInput (bind_limit_message params.length)), st, []) ∧
    PostgreSql.execute_raw_typed srv st sql params =
      (Except.error (ErrorKind.QueryInvalidInput (bind_limit_message params.length)), st, []) := by
  have hcb : check_bind_variables_len params =
      Except.error (ErrorKind.QueryInvalidInput (bind_limit_message params.length)) := by
    unfold check_bind_variables_len
    rw [if_pos h]
  refine ⟨?_, ?_, ?_, ?_⟩
  · unfold PostgreSql.query_raw
    rw [hcb]
  · unfold PostgreSql.query_raw_typed
    rw [hcb]
  · unfold PostgreSql.execute_raw
    rw [hcb]
  · unfold PostgreSql.execute_raw_typed
    rw [hcb]

/-- Witness for C1: a 32768-element parameter list is rejected up front
by query_raw on a concrete server and session. -/
theorem bind_limit_rejected_before_io_witness :
    PostgreSql.query_raw srvAllOk initSession ("SELECT 1")
        (List.replicate 32768 PValue.null) =
      (Except.error (ErrorKind.QueryInvalidInput (bind_limit_message 32768)), initSession, []) := by
  have h := bind_limit_rejected_before_io srvAllOk initSession ("SELECT 1")
    (List.replicate 32768 PValue.null)
    (by rw [List.length_replicate]; norm_num)
  have h1 := h.1
  rw [List.length_replicate] at h1
  exact h1

/-- C4: when the prepared statement's declared parameter count differs
from the supplied parameter count, each operation fails with
IncorrectNumberOfParameters (expected the statement's count, actual the
supplied count); the whole trace is the fetch trace, which consists of
prepare events only — the statement is never executed. -/
theorem param_count_mismatch_no_execute (srv : Server) (st : SessionState)
    (sql : String) (params : List PValue) (stmt : Statement)
    (st1 : SessionState) (evs : List IoEvent)
    (hlen : params.length ≤ 32767)
    (hmm : stmt.params.length ≠ params.length) :
    (fetch_cached srv st sql [] = (Except.ok stmt, st1, evs) →
      PostgreSql.query_raw srv st sql params =
        (Except.error (ErrorKind.IncorrectNumberOfParameters stmt.params.length params.length),
         st1, evs) ∧
      PostgreSql.execute_raw srv st sql params =
        (Except.error (ErrorKind.IncorrectNumberOfParameters stmt.params.length params.length),
         st1, evs) ∧
      (∀ ev ∈ evs, ∃ s tys, ev = IoEvent.prepare s tys)) ∧
    (fetch_cached srv st sql params = (Except.ok stmt, st1, evs) →
      PostgreSql.query_raw_typed srv st sql params =
        (Except.error (ErrorKind.IncorrectNumberOfParameters stmt.params.length params.length),
         st1, evs) ∧
      PostgreSql.execute_raw_typed srv st sql params =
        (Except.error (ErrorKind.IncorrectNumberOfParameters stmt.params.length params.length),
         st1, evs) ∧
      (∀ ev ∈ evs, ∃ s tys, ev = IoEvent.prepare s tys)) := by
  have hcb : check_bind_variables_len params = Except.ok () := by
    unfold check_bind_variables_len
    rw [if_neg (not_lt.mpr hlen)]
  constructor
  · intro hf
    refine ⟨?_, ?_, fetch_cached_events_prepare srv st sql [] _ _ _ hf⟩
    · unfold PostgreSql.query_raw
      rw [hcb, hf]
      simp [hmm]
    · unfold PostgreSql.execute_raw
      rw [hcb, hf]
      simp [hmm]
  · intro hf
    refine ⟨?_, ?_, fetch_cached_events_prepare srv st sql params _ _ _ hf⟩
    · unfold PostgreSql.query_raw_typed
      rw [hcb, hf]
      simp [hmm]
    · unfold PostgreSql.execute_raw_typed
      rw [hcb, hf]
      simp [hmm]

/-- The session state after preparing one statement on a fresh default
session, for the C4 witness. -/
def sessionAfterPrepare : SessionState :=
  { pg_bouncer := false
  , socket_timeout := none
  , statement_cache :=
      { capacity := 100, entries := [(("SELECT $1" : String), stmtOneParam)] }
  , is_healthy := true }

/-- Witness for C4: the spec scenario query_raw of SELECT dollar-one with
two supplied parameters fails with expected 1, actual 2, after only the
preparation round-trip. -/
theorem param_count_mismatch_no_execute_witness :
    PostgreSql.query_raw srvAllOk initSession ("SELECT $1")
        [PValue.int 1, PValue.int 2] =
      (Except.error (ErrorKind.IncorrectNumberOfParameters 1 2), sessionAfterPrepare,
       [IoEvent.prepare ("SELECT $1") []]) := by
  have h := (param_count_mismatch_no_execute srvAllOk initSession ("SELECT $1")
      [PValue.int 1, PValue.int 2] stmtOneParam sessionAfterPrepare
      [IoEvent.prepare ("SELECT $1") []]
      (by decide) (by decide)).1 (by decide)
  exact h.1

/-- C9: requesting Snapshot isolation fails at call time with an
invalid-isolation-level error and an empty trace (no command reaches the
server); every other level goes through raw_cmd, whose trace is exactly
the single SET TRANSACTION ISOLATION LEVEL simple-query command. -/
theorem snapshot_isolation_rejected (srv : Server) (st : SessionState) :
    PostgreSql.set_tx_isolation_level srv st IsolationLevel.Snapshot =
      (Except.error
        (ErrorKind.InvalidIsolationLevel (IsolationLevel.display IsolationLevel.Snapshot)),
       st, []) ∧
    (∀ level : IsolationLevel, level ≠ IsolationLevel.Snapshot →
      PostgreSql.set_tx_isolation_level srv st level =
        PostgreSql.raw_cmd srv st
          (("SET TRANSACTION ISOLATION LEVEL ") ++ level.display) ∧
      (PostgreSql.set_tx_isolation_level srv st level).2.2 =
        [IoEvent.simpleQuery (("SET TRANSACTION ISOLATION LEVEL ") ++ level.display)]) := by
  constructor
  · unfold PostgreSql.set_tx_isolation_level
    rw [if_pos rfl]
  · intro level hne
    have h1 : PostgreSql.set_tx_isolation_level srv st level =
        PostgreSql.raw_cmd srv st
          (("SET TRANSACTION ISOLATION LEVEL ") ++ level.display) := by
      unfold PostgreSql.set_tx_isolation_level
      rw [if_neg hne]
    refine ⟨h1, ?_⟩
    rw [h1]
    simp [PostgreSql.raw_cmd]

/-- Witness for C9: setting Serializable isolation on a concrete session
issues exactly the expected command. -/
theorem snapshot_isolation_rejected_witness :
    PostgreSql.set_tx_isolation_level srvAllOk initSession IsolationLevel.Serializable =
      (Except.ok (), initSession,
       [IoEvent.simpleQuery ("SET TRANSACTION ISOLATION LEVEL SERIALIZABLE")]) := by
  have h := (snapshot_isolation_rejected srvAllOk initSession).2
    IsolationLevel.Serializable (by decide)
  rw [h.1]
  decide

/-- C2: the active-transaction gauge is incremented exactly once by a
successful OwnedTransaction::new and is untouched by a failing one (the
increment is the last step); commit and rollback each decrement it exactly
once; hence a successful begin followed by exactly one of commit/rollback
returns the gauge to its prior value. -/
theorem active_transaction_gauge_balanced (inner : TxQueryable)
    (begin_stmt : String) (tx_opts : TransactionOptions) (gauge : Int) :
    (∀ t g2, OwnedTransaction.new inner begin_stmt tx_opts gauge = (Except.ok t, g2) →
      g2 = gauge + 1) ∧
    (∀ e g2, OwnedTransaction.new inner begin_stmt tx_opts gauge = (Except.error e, g2) →
      g2 = gauge) ∧
    (∀ t : OwnedTransaction, (OwnedTransaction.commit t gauge).2 = gauge - 1) ∧
    (∀ t : OwnedTransaction, (OwnedTransaction.rollback t gauge).2 = gauge - 1) ∧
    (∀ t g2, OwnedTransaction.new inner begin_stmt tx_opts gauge = (Except.ok t, g2) →
      (OwnedTransaction.commit t g2).2 = gauge ∧
      (OwnedTransaction.rollback t g2).2 = gauge) := by
  have hok : ∀ t g2, OwnedTransaction.new inner begin_stmt tx_opts gauge = (Except.ok t, g2) →
      g2 = gauge + 1 := by
    intro t g2 h
    unfold OwnedTransaction.new at h
    simp only [] at h
    split at h
    · exact absurd h (by simp)
    · injection h with h1 h2
      exact h2.symm
  refine ⟨hok, ?_, ?_, ?_, ?_⟩
  · intro e g2 h
    unfold OwnedTransaction.new at h
    simp only [] at h
    split at h
    · injection h with h1 h2
      exact h2.symm
    · exact absurd h (by simp)
  · intro t
    rfl
  · intro t
    rfl
  · intro t g2 h
    have h2 := hok t g2 h
    subst h2
    unfold OwnedTransaction.commit OwnedTransaction.rollback
    constructor <;> simp

/-- Witness for C2: on a session where every step succeeds, begin takes
the gauge from 0 to 1 and a following commit returns it to 0. -/
theorem active_transaction_gauge_balanced_witness :
    (OwnedTransaction.commit { inner := txAllOk } 1).2 = 0 :=
  ((active_transaction_gauge_balanced txAllOk ("BEGIN")
      { isolation_level := none, isolation_first := false } 0).2.2.2.2
    { inner := txAllOk } 1 rfl).1

/-- Unfolding lemma for one iteration of the parse fold. -/
theorem parsePairs_cons (kv : String × String) (rest : List (String × String))
    (acc : PostgresUrlQueryParams) :
    parsePairs (kv :: rest) acc =
      match parseStep acc kv with
      | Except.ok acc2 => parsePairs rest acc2
      | Except.error e => Except.error e := rfl

/-- Folding a single query pair is exactly one parse step. -/
theorem parsePairs_single (acc : PostgresUrlQueryParams) (kv : String × String) :
    parsePairs [kv] acc = parseStep acc kv := by
  cases h : parseStep acc kv <;> simp [parsePairs, h]

/-- Exhaustive shape analysis of one parse step: it either fails with
InvalidConnectionArguments, or succeeds; a success with any key other
than statement_cache_size preserves the statement_cache_size field. -/
theorem parseStep_shape (acc : PostgresUrlQueryParams) (kv : String × String) :
    parseStep acc kv = Except.error ErrorKind.InvalidConnectionArguments ∨
    (∃ acc2, parseStep acc kv = Except.ok acc2 ∧
      (kv.1 = ("statement_cache_size" : String) ∨
        acc2.statement_cache_size = acc.statement_cache_size)) := by
  unfold parseStep
  by_cases hk1 : kv.1 = "pgbouncer"
  · rw [if_pos hk1]
    cases hb : parseBool kv.2
    · exact Or.inl rfl
    · exact Or.inr ⟨_, rfl, Or.inr rfl⟩
  rw [if_neg hk1]
  by_cases hk2 : kv.1 = "sslmode"
  · rw [if_pos hk2]
    by_cases hv1 : kv.2 = "disable"
    · rw [if_pos hv1]
      exact Or.inr ⟨_, rfl, Or.inr rfl⟩
    rw [if_neg hv1]
    by_cases hv2 : kv.2 = "prefer"
    · rw [if_pos hv2]
      exact Or.inr ⟨_, rfl, Or.inr rfl⟩
    rw [if_neg hv2]
    by_cases hv3 : kv.2 = "require"
    · rw [if_pos hv3]
      exact Or.inr ⟨_, rfl, Or.inr rfl⟩
    rw [if_neg hv3]
    exact Or.inr ⟨_, rfl, Or.inr rfl⟩
  rw [if_neg hk2]
  by_cases hk3 : kv.1 = "sslcert"
  · rw [if_pos hk3]
    exact Or.inr ⟨_, rfl, Or.inr rfl⟩
  rw [if_neg hk3]
  by_cases hk4 : kv.1 = "sslidentity"
  · rw [if_pos hk4]
    exact Or.inr ⟨_, rfl, Or.inr rfl⟩
  rw [if_neg hk4]
  by_cases hk5 : kv.1 = "sslpassword"
  · rw [if_pos hk5]
    exact Or.inr ⟨_, rfl, Or.inr rfl⟩
  rw [if_neg hk5]
  by_cases hk6 : kv.1 = "statement_cache_size"
  · rw [if_pos hk6]
    cases hn : parseNat kv.2
    · exact Or.inl rfl
    · exact Or.inr ⟨_, rfl, Or.inl hk6⟩
  rw [if_neg hk6]
  by_cases hk7 : kv.1 = "sslaccept"
  · rw [if_pos hk7]
    by_cases hv1 : kv.2 = "strict"
    · rw [if_pos hv1]
      exact Or.inr ⟨_, rfl, Or.inr rfl⟩
    rw [if_neg hv1]
    by_cases hv2 : kv.2 = "accept_invalid_certs"
    · rw [if_pos hv2]
      exact Or.inr ⟨_, rfl, Or.inr rfl⟩
    rw [if_neg hv2]
    exact Or.inr ⟨_, rfl, Or.inr rfl⟩
  rw [if_neg hk7]
  by_cases hk8 : kv.1 = "schema"
  · rw [if_pos hk8]
    exact Or.inr ⟨_, rfl, Or.inr rfl⟩
  rw [if_neg hk8]
  by_cases hk9 : kv.1 = "connection_limit"
  · rw [if_pos hk9]
    cases hn : parseNat kv.2
    · exact Or.inl rfl
    · exact Or.inr ⟨_, rfl, Or.inr rfl⟩
  rw [if_neg hk9]
  by_cases hk10 : kv.1 = "host"
  · rw [if_pos hk10]
    exact Or.inr ⟨_, rfl, Or.inr rfl⟩
  rw [if_neg hk10]
  by_cases hk11 : kv.1 = "socket_timeout"
  · rw [if_pos hk11]
    cases hn : parseNat kv.2
    · exact Or.inl rfl
    · exact Or.inr ⟨_, rfl, Or.inr rfl⟩
  rw [if_neg hk11]
  by_cases hk12 : kv.1 = "connect_timeout"
  · rw [if_pos hk12]
    cases hn : parseNat kv.2 with
    | none => exact Or.inl rfl
    | some n =>
      simp only []
      by_cases hz : n = 0
      · rw [if_pos hz]
        exact Or.inr ⟨_, rfl, Or.inr rfl⟩
      · rw [if_neg hz]
        exact Or.inr ⟨_, rfl, Or.inr rfl⟩
  rw [if_neg hk12]
  by_cases hk13 : kv.1 = "pool_timeout"
  · rw [if_pos hk13]
    cases hn : parseNat kv.2 with
    | none => exact Or.inl rfl
    | some n =>
      simp only []
      by_cases hz : n = 0
      · rw [if_pos hz]
        exact Or.inr ⟨_, rfl, Or.inr rfl⟩
      · rw [if_neg hz]
        exact Or.inr ⟨_, rfl, Or.inr rfl⟩
  rw [if_neg hk13]
  by_cases hk14 : kv.1 = "max_connection_lifetime"
  · rw [if_pos hk14]
    cases hn : parseNat kv.2 with
    | none => exact Or.inl rfl
    | some n =>
      simp only []
      by_cases hz : n = 0
      · rw [if_pos hz]
        exact Or.inr ⟨_, rfl, Or.inr rfl⟩
      · rw [if_neg hz]
        exact Or.inr ⟨_, rfl, Or.inr rfl⟩
  rw [if_neg hk14]
  by_cases hk15 : kv.1 = "max_idle_connection_lifetime"
  · rw [if_pos hk15]
    cases hn : parseNat kv.2 with
    | none => exact Or.inl rfl
    | some n =>
      simp only []
      by_cases hz : n = 0
      · rw [if_pos hz]
        exact Or.inr ⟨_, rfl, Or.inr rfl⟩
      · rw [if_neg hz]
        exact Or.inr ⟨_, rfl, Or.inr rfl⟩
  rw [if_neg hk15]
  by_cases hk16 : kv.1 = "application_name"
  · rw [if_pos hk16]
    exact Or.inr ⟨_, rfl, Or.inr rfl⟩
  rw [if_neg hk16]
  by_cases hk17 : kv.1 = "channel_binding"
  · rw [if_pos hk17]
    by_cases hv1 : kv.2 = "disable"
    · rw [if_pos hv1]
      exact Or.inr ⟨_, rfl, Or.inr rfl⟩
    rw [if_neg hv1]
    by_cases hv2 : kv.2 = "prefer"
    · rw [if_pos hv2]
      exact Or.inr ⟨_, rfl, Or.inr rfl⟩
    rw [if_neg hv2]
    by_cases hv3 : kv.2 = "require"
    · rw [if_pos hv3]
      exact Or.inr ⟨_, rfl, Or.inr rfl⟩
    rw [if_neg hv3]
    exact Or.inr ⟨_, rfl, Or.inr rfl⟩
  rw [if_neg hk17]
  by_cases hk18 : kv.1 = "options"
  · rw [if_pos hk18]
    exact Or.inr ⟨_, rfl, Or.inr rfl⟩
  rw [if_neg hk18]
  exact Or.inr ⟨_, rfl, Or.inr rfl⟩

/-- Any error produced by a parse step is InvalidConnectionArguments. -/
theorem parseStep_error_eq (acc : PostgresUrlQueryParams)
    (kv : String × String) (e : ErrorKind)
    (h : parseStep acc kv = Except.error e) :
    e = ErrorKind.InvalidConnectionArguments := by
  rcases parseStep_shape acc kv with hs | ⟨acc2, hs, -⟩
  · rw [hs] at h
    exact (Except.error.inj h).symm
  · rw [hs] at h
    exact Except.noConfusion h

/-- A successful parse step with a key other than statement_cache_size
leaves the statement_cache_size accumulator field unchanged. -/
theorem parseStep_scs_preserved (acc acc2 : PostgresUrlQueryParams)
    (kv : String × String) (hk : kv.1 ≠ ("statement_cache_size" : String))
    (h : parseStep acc kv = Except.ok acc2) :
    acc2.statement_cache_size = acc.statement_cache_size := by
  rcases parseStep_shape acc kv with hs | ⟨acc3, hs, hor⟩
  · rw [hs] at h
    exact Except.noConfusion h
  · rw [hs] at h
    have h3 : acc3 = acc2 := Except.ok.inj h
    rcases hor with hkey | hpres
    · exact absurd hkey hk
    · rw [← h3]
      exact hpres

/-- The statement_cache_size of a successful parse is the accumulator's
when no pair carries the statement_cache_size key. -/
theorem parsePairs_scs_preserved (pairs : List (String × String)) :
    ∀ acc qp, parsePairs pairs acc = Except.ok qp →
    (∀ kv ∈ pairs, kv.1 ≠ ("statement_cache_size" : String)) →
    qp.statement_cache_size = acc.statement_cache_size := by
  induction pairs with
  | nil =>
    intro acc qp h hk
    injection h with h1
    rw [← h1]
  | cons kv rest ih =>
    intro acc qp h hk
    unfold parsePairs at h
    cases hs : parseStep acc kv with
    | error e =>
      rw [hs] at h
      exact Except.noConfusion h
    | ok acc2 =>
      rw [hs] at h
      have h2 := ih acc2 qp h (fun kv2 hm => hk kv2 (List.mem_cons_of_mem _ hm))
      rw [h2]
      exact parseStep_scs_preserved acc acc2 kv (hk kv (List.mem_cons_self _ _)) hs

/-- C3: on any successfully parsed URL, cache() is a fresh (empty) LRU
whose capacity is 0 when pg_bouncer is set and statement_cache_size
otherwise; when the URL carries no statement_cache_size parameter that
capacity is the default 100 (unless pg_bouncer forces 0). -/
theorem cache_capacity_pgbouncer (url : Url) (pu : PostgresUrl)
    (h : PostgresUrl.new url = Except.ok pu) :
    (pu.cache.capacity =
      if pu.query_params.pg_bouncer then 0 else pu.query_params.statement_cache_size) ∧
    pu.cache.entries = [] ∧
    ((∀ kv ∈ url.query_pairs, kv.1 ≠ ("statement_cache_size" : String)) →
      pu.cache.capacity = if pu.query_params.pg_bouncer then 0 else 100) := by
  have hparse : parse_query_params url.query_pairs = Except.ok pu.query_params := by
    unfold PostgresUrl.new at h
    split at h
    · injection h with h1
      rw [← h1]
      assumption
    · exact Except.noConfusion h
  have hcap : pu.cache.capacity =
      if pu.query_params.pg_bouncer then 0 else pu.query_params.statement_cache_size := by
    unfold PostgresUrl.cache LruCache.new
    by_cases hb : pu.query_params.pg_bouncer <;> simp [hb]
  refine ⟨hcap, ?_, ?_⟩
  · unfold PostgresUrl.cache LruCache.new
    by_cases hb : pu.query_params.pg_bouncer <;> simp [hb]
  · intro hk
    have h100 : pu.query_params.statement_cache_size = 100 :=
      parsePairs_scs_preserved url.query_pairs initParams pu.query_params hparse hk
    rw [hcap, h100]

/-- A concrete URL enabling pgbouncer mode, for the C3 witness. -/
def urlPgBouncer : Url :=
  { host_str := some ("localhost")
  , port := some 5432
  , path := ("/foo" : String)
  , query_pairs := [(("pgbouncer" : String), ("true" : String))]
  , username := ("" : String)
  , password := none }

/-- The parsed params of urlPgBouncer. -/
def qpPgBouncer : PostgresUrlQueryParams :=
  { initParams with pg_bouncer := true }

/-- Witness for C3: with pgbouncer=true the statement cache capacity
is 0. -/
theorem cache_capacity_pgbouncer_witness :
    (PostgresUrl.mk urlPgBouncer qpPgBouncer).cache.capacity = 0 := by
  have h := cache_capacity_pgbouncer urlPgBouncer
    (PostgresUrl.mk urlPgBouncer qpPgBouncer) (by decide)
  rw [h.1]
  decide

/-- C5: absent parameters default connect_timeout to 5 s, pool_timeout to
10 s, max_connection_lifetime to unset and max_idle_connection_lifetime
to 300 s; a parsed value of 0 collapses each of those four to unset while
a positive n gives n seconds; socket_timeout has no zero sentinel — 0
parses to a zero-second timeout. -/
theorem timeout_zero_sentinels (v : String) (n : Nat) (h : parseNat v = some n) :
    ((parse_query_params []).map (fun qp => qp.connect_timeout) = Except.ok (some 5)) ∧
    ((parse_query_params []).map (fun qp => qp.pool_timeout) = Except.ok (some 10)) ∧
    ((parse_query_params []).map (fun qp => qp.max_connection_lifetime) = Except.ok none) ∧
    ((parse_query_params []).map (fun qp => qp.max_idle_connection_lifetime) =
      Except.ok (some 300)) ∧
    ((parse_query_params []).map (fun qp => qp.socket_timeout) = Except.ok none) ∧
    ((parse_query_params [(("connect_timeout" : String), v)]).map
      (fun qp => qp.connect_timeout) = Except.ok (if n = 0 then none else some n)) ∧
    ((parse_query_params [(("pool_timeout" : String), v)]).map
      (fun qp => qp.pool_timeout) = Except.ok (if n = 0 then none else some n)) ∧
    ((parse_query_params [(("max_connection_lifetime" : String), v)]).map
      (fun qp => qp.max_connection_lifetime) = Except.ok (if n = 0 then none else some n)) ∧
    ((parse_query_params [(("max_idle_connection_lifetime" : String), v)]).map
      (fun qp => qp.max_idle_connection_lifetime) = Except.ok (if n = 0 then none else some n)) ∧
    ((parse_query_params [(("socket_timeout" : String), v)]).map
      (fun qp => qp.socket_timeout) = Except.ok (some n)) := by
  refine ⟨rfl, rfl, rfl, rfl, rfl, ?_, ?_, ?_, ?_, ?_⟩ <;>
  · unfold parse_query_params
    rw [parsePairs_single]
    by_cases hn : n = 0 <;> simp [parseStep, h, hn, Except.map]

/-- Witness for C5: connect_timeout=0 parses to an unset connect
timeout. -/
theorem timeout_zero_sentinels_witness :
    (parse_query_params [(("connect_timeout" : String), ("0" : String))]).map
      (fun qp => qp.connect_timeout) = Except.ok none := by
  have h := timeout_zero_sentinels ("0") 0 (by decide)
  simpa using h.2.2.2.2.2.1

/-- The query-parameter keys carrying parsed (non-string) values, as
enumerated by the claim. -/
def numericKeys : List String :=
  [("pgbouncer" : String), ("statement_cache_size" : String),
   ("connection_limit" : String), ("socket_timeout" : String),
   ("connect_timeout" : String), ("pool_timeout" : String),
   ("max_connection_lifetime" : String), ("max_idle_connection_lifetime" : String)]

/-- All keys the parse loop recognizes; everything else is discarded. -/
def recognizedKeys : List String :=
  [("pgbouncer" : String), ("sslmode" : String), ("sslcert" : String),
   ("sslidentity" : String), ("sslpassword" : String),
   ("statement_cache_size" : String), ("sslaccept" : String),
   ("schema" : String), ("connection_limit" : String), ("host" : String),
   ("socket_timeout" : String), ("connect_timeout" : String),
   ("pool_timeout" : String), ("max_connection_lifetime" : String),
   ("max_idle_connection_lifetime" : String), ("application_name" : String),
   ("channel_binding" : String), ("options" : String)]

/-- The value fails the parse its key demands: bool for pgbouncer, an
unsigned integer for the other numeric keys. -/
def numericValueBad (k v : String) : Bool :=
  if k = "pgbouncer" then (parseBool v).isNone else (parseNat v).isNone

/-- A numeric key with an unparseable value makes the parse step fail
with InvalidConnectionArguments, whatever the accumulator. -/
theorem parseStep_numeric_fail (k v : String) (hk : k ∈ numericKeys)
    (hb : numericValueBad k v = true) :
    ∀ acc, parseStep acc (k, v) = Except.error ErrorKind.InvalidConnectionArguments := by
  intro acc
  simp [numericKeys] at hk
  unfold numericValueBad at hb
  rcases hk with rfl | rfl | rfl | rfl | rfl | rfl | rfl | rfl <;>
    simp [Option.isNone_iff_eq_none] at hb <;>
    simp [parseStep, hb]

/-- If some pair of the list makes every parse step fail with
InvalidConnectionArguments, the whole fold fails with exactly that
error. -/
theorem parsePairs_fails_of_mem (pairs : List (String × String)) :
    ∀ acc kv, kv ∈ pairs →
    (∀ a, parseStep a kv = Except.error ErrorKind.InvalidConnectionArguments) →
    parsePairs pairs acc = Except.error ErrorKind.InvalidConnectionArguments := by
  induction pairs with
  | nil =>
    intro acc kv hm
    exact absurd hm (List.not_mem_nil kv)
  | cons kv2 rest ih =>
    intro acc kv hm hf
    cases hs : parseStep acc kv2 with
    | error e =>
      have he := parseStep_error_eq acc kv2 e hs
      subst he
      unfold parsePairs
      rw [hs]
    | ok acc2 =>
      rcases List.mem_cons.mp hm with h1 | hm2
      · subst h1
        rw [hf acc] at hs
        exact Except.noConfusion hs
      · have hrw : parsePairs (kv2 :: rest) acc = parsePairs rest acc2 := by
          rw [parsePairs_cons, hs]
        rw [hrw]
        exact ih acc2 kv hm2 hf

/-- An unrecognized key leaves the accumulator unchanged and never
errors. -/
theorem parseStep_unknown_key (acc : PostgresUrlQueryParams)
    (kv : String × String) (hk : kv.1 ∉ recognizedKeys) :
    parseStep acc kv = Except.ok acc := by
  simp [recognizedKeys] at hk
  obtain ⟨n1, n2, n3, n4, n5, n6, n7, n8, n9, n10, n11, n12, n13, n14, n15, n16, n17, n18⟩ := hk
  unfold parseStep
  simp only []
  rw [if_neg n1, if_neg n2, if_neg n3, if_neg n4, if_neg n5, if_neg n6, if_neg n7,
    if_neg n8, if_neg n9, if_neg n10, if_neg n11, if_neg n12, if_neg n13, if_neg n14,
    if_neg n15, if_neg n16, if_neg n17, if_neg n18]

/-- C6: a URL containing any recognized numeric parameter whose value
does not parse makes PostgresUrl::new fail with
InvalidConnectionArguments instead of producing a connection URL, while
unrecognized keys never cause an error (their step is a no-op). -/
theorem invalid_numeric_param_rejected (url : Url) (k v : String)
    (hmem : (k, v) ∈ url.query_pairs) (hk : k ∈ numericKeys)
    (hb : numericValueBad k v = true) :
    PostgresUrl.new url = Except.error ErrorKind.InvalidConnectionArguments ∧
    (∀ acc kv2, kv2.1 ∉ recognizedKeys → parseStep acc kv2 = Except.ok acc) := by
  constructor
  · have hfail := parsePairs_fails_of_mem url.query_pairs initParams (k, v) hmem
      (parseStep_numeric_fail k v hk hb)
    unfold PostgresUrl.new parse_query_params
    rw [hfail]
  · intro acc kv2 hk2
    exact parseStep_unknown_key acc kv2 hk2

/-- A URL whose connect_timeout value is not a number, for the C6
witness. -/
def urlBadTimeout : Url :=
  { host_str := some ("localhost")
  , port := none
  , path := ("/db" : String)
  , query_pairs := [(("connect_timeout" : String), ("abc" : String))]
  , username := ("" : String)
  , password := none }

/-- Witness for C6: connect_timeout=abc is rejected with
InvalidConnectionArguments, and a made-up key is ignored. -/
theorem invalid_numeric_param_rejected_witness :
    PostgresUrl.new urlBadTimeout = Except.error ErrorKind.InvalidConnectionArguments ∧
    parseStep initParams (("made_up_key" : String), ("1" : String)) =
      Except.ok initParams := by
  have h := invalid_numeric_param_rejected urlBadTimeout ("connect_timeout") ("abc")
    (by decide) (by decide) (by decide)
  exact ⟨h.1, h.2 initParams (("made_up_key" : String), ("1" : String)) (by decide)⟩

/-- C7: host() prefers the host query parameter; with no query parameter
it falls back to the URL host, and an absent or empty URL host yields
localhost. -/
theorem host_prefers_query_param (u : PostgresUrl) :
    (∀ hv, u.query_params.host = some hv → u.host = hv) ∧
    (u.query_params.host = none → u.url.host_str = none →
      u.host = ("localhost" : String)) ∧
    (u.query_params.host = none → u.url.host_str = some ("" : String) →
      u.host = ("localhost" : String)) ∧
    (∀ s, u.query_params.host = none → u.url.host_str = some s →
      s ≠ ("" : String) → u.host = s) := by
  refine ⟨?_, ?_, ?_, ?_⟩
  · intro hv hq
    unfold PostgresUrl.host
    rw [hq]
  · intro hq hu
    unfold PostgresUrl.host
    rw [hq, hu]
  · intro hq hu
    unfold PostgresUrl.host
    rw [hq, hu]
    decide
  · intro s hq hu hs
    unfold PostgresUrl.host
    rw [hq, hu]
    split <;> simp_all

/-- A unix-socket style URL: empty URL host, host given as a query
parameter, for the C7 witness. -/
def puSocketHost : PostgresUrl :=
  { url :=
      { host_str := none
      , port := none
      , path := ("/dbname" : String)
      , query_pairs := [(("host" : String), ("/var/run/psql.sock" : String))]
      , username := ("" : String)
      , password := none }
  , query_params := { initParams with host := some ("/var/run/psql.sock") } }

/-- Witness for C7: the host query parameter wins. -/
theorem host_prefers_query_param_witness :
    puSocketHost.host = ("/var/run/psql.sock" : String) :=
  (host_prefers_query_param puSocketHost).1 ("/var/run/psql.sock") rfl

/-- C8: an unknown sslmode value leaves ssl_mode at its default Prefer,
while an unknown sslaccept value coerces ssl_accept_mode to Strict even
though the absent-parameter default is AcceptInvalidCerts. -/
theorem ssl_enum_unknown_values (v : String)
    (hm : v ≠ ("disable" : String) ∧ v ≠ ("prefer" : String) ∧ v ≠ ("require" : String))
    (ha : v ≠ ("strict" : String) ∧ v ≠ ("accept_invalid_certs" : String)) :
    ((parse_query_params [(("sslmode" : String), v)]).map
      (fun qp => qp.ssl_mode) = Except.ok SslMode.Prefer) ∧
    ((parse_query_params []).map (fun qp => qp.ssl_mode) = Except.ok SslMode.Prefer) ∧
    ((parse_query_params [(("sslaccept" : String), v)]).map
      (fun qp => qp.ssl_params.ssl_accept_mode) = Except.ok SslAcceptMode.Strict) ∧
    ((parse_query_params []).map (fun qp => qp.ssl_params.ssl_accept_mode) =
      Except.ok SslAcceptMode.AcceptInvalidCerts) := by
  obtain ⟨h1, h2, h3⟩ := hm
  obtain ⟨h4, h5⟩ := ha
  refine ⟨?_, rfl, ?_, rfl⟩ <;>
  · unfold parse_query_params
    rw [parsePairs_single]
    simp [parseStep, h1, h2, h3, h4, h5, Except.map, initParams]

/-- Witness for C8: sslaccept=invalid coerces to Strict. -/
theorem ssl_enum_unknown_values_witness :
    (parse_query_params [(("sslaccept" : String), ("invalid" : String))]).map
      (fun qp => qp.ssl_params.ssl_accept_mode) = Except.ok SslAcceptMode.Strict :=
  (ssl_enum_unknown_values ("invalid") (by decide) (by decide)).2.2.1

/-- Splitting a path remainder always produces at least one segment. -/
theorem splitSegs_ne_nil (cs : List Char) : splitSegs cs ≠ [] := by
  induction cs with
  | nil => simp [splitSegs]
  | cons c cs ih =>
    unfold splitSegs
    by_cases hc : c = '/'
    · simp [hc]
    · rw [if_neg hc]
      cases hs : splitSegs cs with
      | nil => exact absurd hs ih
      | cons s ss => simp

/-- C10: dbname() returns the first path segment verbatim, including the
empty segment of a bare slash path; the postgres default appears only
when the URL has no path segments at all (and a present segment list is
never empty). -/
theorem dbname_first_segment (u : PostgresUrl) :
    (u.url.path = ("/" : String) → u.dbname = ("" : String)) ∧
    (∀ s rest, u.url.path_segments = some (s :: rest) → u.dbname = s) ∧
    (∀ segs, u.url.path_segments = some segs → segs ≠ []) ∧
    (u.url.path_segments = none → u.dbname = ("postgres" : String)) := by
  refine ⟨?_, ?_, ?_, ?_⟩
  · intro hp
    have hd : u.url.path.data = ['/'] := by
      rw [hp]
    unfold PostgresUrl.dbname Url.path_segments
    rw [hd]
    decide
  · intro s rest hseg
    unfold PostgresUrl.dbname
    rw [hseg]
    simp
  · intro segs hseg hnil
    unfold Url.path_segments at hseg
    split at hseg
    next rest heq =>
      have hm := Option.some.inj hseg
      rw [hnil] at hm
      exact splitSegs_ne_nil rest (List.map_eq_nil_iff.mp hm)
    next =>
      exact Option.noConfusion hseg
  · intro hseg
    unfold PostgresUrl.dbname
    rw [hseg]

/-- A URL whose path is a bare slash, for the C10 witness. -/
def puRootPath : PostgresUrl :=
  { url :=
      { host_str := some ("localhost")
      , port := none
      , path := ("/" : String)
      , query_pairs := []
      , username := ("" : String)
      , password := none }
  , query_params := initParams }

/-- Witness for C10: a path of just a slash yields the empty database
name, not the postgres default. -/
theorem dbname_first_segment_witness : puRootPath.dbname = ("" : String) :=
  (dbname_first_segment puRootPath).1 rfl

end Quaint
